import Mathlib

/-!
Shallow embedding of `cinder/scheduler/rpcapi.py` (class `SchedulerAPI`),
the client side of the cinder scheduler RPC API.

Modelling choices:
* RPC versions are pairs `major.minor` with the usual lexicographic order.
* The negotiated capability of the remote endpoint is a single `Version`
  `cap`; the transport predicate `can_send_version v` is `v ≤ cap`.
  This predicate lives in the external messaging library, not in the
  repository source, and is modelled from the spec (Capability Negotiator:
  "determines whether the remote endpoint's advertised maximum version is
  at least that high").
* `cinder.rpc.RPCAPI._get_cctxt` is modelled from the spec: it prepares
  the transport client at the requested target version, defaulting to the
  facade's `RPC_DEFAULT_VERSION = '3.0'` when no version is given.
* `jsonutils.to_primitive` (the external Primitive Codec) is modelled as
  an opaque injective marker `toPrimitive` on values.
* `timeutils.utcnow` is modelled as an explicit ambient clock argument
  `now : Nat` to the one operation that reads the clock.
* Each operation returns an `Outcome`: the ordered trace of side effects
  it performed (worker creation, transport sends) together with either a
  returned value or a raised exception.  An exception raised before a
  transport send leaves the effect trace empty, mirroring Python's eager
  raise.
* Python values flowing through the facade (context, volume, specs, ...)
  are modelled by the inert value type `Value`; `None` defaults that the
  code branches on (`request_spec_list`, `timestamp`) are `Option`s, and
  iterating over `None` is modelled as the `TypeError` Python raises.
-/

/-- A two-part RPC version `major.minor`. -/
structure Version where
  major : Nat
  minor : Nat
deriving DecidableEq, Repr

/-- Total order on versions: lexicographic on (major, minor). -/
def Version.le (a b : Version) : Bool :=
  decide (a.major < b.major ∨ (a.major = b.major ∧ a.minor ≤ b.minor))

/-- Strict order on versions. -/
def Version.lt (a b : Version) : Bool :=
  Version.le a b && !(Version.le b a)

/-- Modelled from the spec: the Capability Negotiator / transport predicate
`can_send_version` (external messaging library, not in the repository
source): a candidate target version is supported iff the endpoint's
advertised maximum capability is at least that high. -/
def supports (cap v : Version) : Bool :=
  Version.le v cap

/-- `RPC_DEFAULT_VERSION = '3.0'` from the source class attributes; used by
`_get_cctxt()` when no explicit version is requested. -/
def RPC_DEFAULT_VERSION : Version := ⟨3, 0⟩

/-- `RPC_API_VERSION = '3.3'` from the source class attributes. -/
def RPC_API_VERSION : Version := ⟨3, 3⟩

/-- Transport-safe values flowing through the facade.  Domain objects,
dicts and strings are inert payload from the facade's point of view. -/
inductive Value where
  | null
  | str (s : String)
  | num (n : Nat)
  | bool (b : Bool)
  | obj (name : String)
  | nil
  | cons (hd tl : Value)
  | time (t : Nat)
  | prim (v : Value)
deriving DecidableEq, Repr

/-- A Python list of values, cons-encoded. -/
def Value.list : List Value → Value
  | [] => Value.nil
  | v :: vs => Value.cons v (Value.list vs)

/-- Modelled from the spec: the external Primitive Codec
`jsonutils.to_primitive`, total on every value the facade passes through
it; represented as an opaque marker on the value. -/
def toPrimitive (v : Value) : Value :=
  Value.prim v

/-- Delivery modes of the transport client. -/
inductive DeliveryMode where
  | cast
  | call
  | fanoutCast
deriving DecidableEq, Repr

/-- A call envelope: context, operation name, argument mapping (in Python
dict insertion order), target version and delivery mode. -/
structure Envelope where
  ctx : Value
  method : String
  version : Version
  mode : DeliveryMode
  args : List (String × Value)
deriving DecidableEq, Repr

/-- Side effects an invocation can perform, in order. -/
inductive Effect where
  | createWorker (volume : Value)
  | send (e : Envelope)
deriving DecidableEq, Repr

/-- Exceptions raised by an invocation. -/
inductive RpcError where
  | serviceTooOld (msg : String)
  | typeError (msg : String)
deriving DecidableEq, Repr

instance : DecidableEq (Except RpcError Value) := fun a b =>
  match a, b with
  | Except.ok x, Except.ok y =>
      if h : x = y then isTrue (by rw [h]) else isFalse (by intro he; cases he; exact h rfl)
  | Except.error x, Except.error y =>
      if h : x = y then isTrue (by rw [h]) else isFalse (by intro he; cases he; exact h rfl)
  | Except.ok _, Except.error _ => isFalse (by intro he; cases he)
  | Except.error _, Except.ok _ => isFalse (by intro he; cases he)

/-- The observable outcome of one invocation: the ordered effect trace and
the returned value or raised exception. -/
structure Outcome where
  effects : List Effect
  result : Except RpcError Value
deriving DecidableEq, Repr

/-- Python message of iterating over `None`. -/
def noneIterMsg : String := "NoneType object is not iterable"

/-- Source error message of the `extend_volume` hard gate. -/
def extendVolumeTooOldMsg : String :=
  "extend_volume requires cinder-scheduler RPC API version >= 3.2."

/-- Source error message of the `notify_service_capabilities` hard gate. -/
def notifyTooOldMsg : String :=
  "notify_service_capabilities requires cinder-scheduler RPC API version >= 3.1."

/-- `SchedulerAPI.create_consistencygroup`: to_primitive over each element
of `request_spec_list` (a `TypeError` when the documented `None` default is
left in place), then a cast of `create_consistencygroup` at the default
version. -/
def create_consistencygroup (_cap : Version) (ctxt group : Value)
    (request_spec_list : Option (List Value))
    (filter_properties_list : Value) : Outcome :=
  match request_spec_list with
  | none => { effects := [], result := .error (.typeError noneIterMsg) }
  | some rsl =>
    let request_spec_p_list := Value.list (rsl.map toPrimitive)
    let msg_args := [("group", group),
                     ("request_spec_list", request_spec_p_list),
                     ("filter_properties_list", filter_properties_list)]
    { effects := [Effect.send { ctx := ctxt, method := "create_consistencygroup",
                                version := RPC_DEFAULT_VERSION, mode := .cast,
                                args := msg_args }],
      result := .ok Value.null }

/-- `SchedulerAPI.create_group`: like `create_consistencygroup` with the
extra `group_spec` (to_primitive) and the two filter-property arguments. -/
def create_group (_cap : Version) (ctxt group group_spec : Value)
    (request_spec_list : Option (List Value))
    (group_filter_properties filter_properties_list : Value) : Outcome :=
  match request_spec_list with
  | none => { effects := [], result := .error (.typeError noneIterMsg) }
  | some rsl =>
    let request_spec_p_list := Value.list (rsl.map toPrimitive)
    let group_spec_p := toPrimitive group_spec
    let msg_args := [("group", group),
                     ("group_spec", group_spec_p),
                     ("request_spec_list", request_spec_p_list),
                     ("group_filter_properties", group_filter_properties),
                     ("filter_properties_list", filter_properties_list)]
    { effects := [Effect.send { ctx := ctxt, method := "create_group",
                                version := RPC_DEFAULT_VERSION, mode := .cast,
                                args := msg_args }],
      result := .ok Value.null }

/-- `SchedulerAPI.create_volume`: calls `volume.create_worker()` first,
then casts `create_volume` at the default version with the raw arguments
(no to_primitive in this method). -/
def create_volume (_cap : Version) (ctxt volume snapshot_id image_id
    request_spec filter_properties : Value) : Outcome :=
  let msg_args := [("snapshot_id", snapshot_id),
                   ("image_id", image_id),
                   ("request_spec", request_spec),
                   ("filter_properties", filter_properties),
                   ("volume", volume)]
  { effects := [Effect.createWorker volume,
                Effect.send { ctx := ctxt, method := "create_volume",
                              version := RPC_DEFAULT_VERSION, mode := .cast,
                              args := msg_args }],
    result := .ok Value.null }

/-- `SchedulerAPI.migrate_volume`: soft fallback.  When the endpoint
supports 3.3, cast `migrate_volume` at 3.3 with `backend`/`force_copy`;
otherwise cast `migrate_volume_to_host` at 3.0 with
`host`/`force_host_copy`. -/
def migrate_volume (cap : Version) (ctxt volume backend : Value)
    (force_copy : Bool) (request_spec filter_properties : Value) : Outcome :=
  let request_spec_p := toPrimitive request_spec
  let base := [("request_spec", request_spec_p),
               ("filter_properties", filter_properties),
               ("volume", volume)]
  if supports cap ⟨3, 3⟩ then
    { effects := [Effect.send { ctx := ctxt, method := "migrate_volume",
                                version := ⟨3, 3⟩, mode := .cast,
                                args := base ++ [("backend", backend),
                                                 ("force_copy", Value.bool force_copy)] }],
      result := .ok Value.null }
  else
    { effects := [Effect.send { ctx := ctxt, method := "migrate_volume_to_host",
                                version := ⟨3, 0⟩, mode := .cast,
                                args := base ++ [("host", backend),
                                                 ("force_host_copy", Value.bool force_copy)] }],
      result := .ok Value.null }

/-- `SchedulerAPI.retype`: to_primitive on `request_spec`, then a cast of
`retype` at the default version. -/
def retype (_cap : Version) (ctxt volume request_spec filter_properties : Value) : Outcome :=
  let request_spec_p := toPrimitive request_spec
  let msg_args := [("request_spec", request_spec_p),
                   ("filter_properties", filter_properties),
                   ("volume", volume)]
  { effects := [Effect.send { ctx := ctxt, method := "retype",
                              version := RPC_DEFAULT_VERSION, mode := .cast,
                              args := msg_args }],
    result := .ok Value.null }

/-- `SchedulerAPI.manage_existing`: to_primitive on `request_spec`, then a
cast of `manage_existing` at the default version. -/
def manage_existing (_cap : Version) (ctxt volume request_spec filter_properties : Value) : Outcome :=
  let request_spec_p := toPrimitive request_spec
  let msg_args := [("request_spec", request_spec_p),
                   ("filter_properties", filter_properties),
                   ("volume", volume)]
  { effects := [Effect.send { ctx := ctxt, method := "manage_existing",
                              version := RPC_DEFAULT_VERSION, mode := .cast,
                              args := msg_args }],
    result := .ok Value.null }

/-- `SchedulerAPI.extend_volume`: hard gate.  Raises `ServiceTooOld` before
any send when the endpoint does not support 3.2; otherwise casts
`extend_volume` on the default-version context. -/
def extend_volume (cap : Version) (ctxt volume new_size reservations
    request_spec filter_properties : Value) : Outcome :=
  if !(supports cap ⟨3, 2⟩) then
    { effects := [], result := .error (.serviceTooOld extendVolumeTooOldMsg) }
  else
    let request_spec_p := toPrimitive request_spec
    let msg_args := [("volume", volume),
                     ("new_size", new_size),
                     ("reservations", reservations),
                     ("request_spec", request_spec_p),
                     ("filter_properties", filter_properties)]
    { effects := [Effect.send { ctx := ctxt, method := "extend_volume",
                                version := RPC_DEFAULT_VERSION, mode := .cast,
                                args := msg_args }],
      result := .ok Value.null }

/-- `SchedulerAPI.get_pools`: a blocking request/reply `call` of
`get_pools` at the default version, returning the transport's reply (the
reply value is supplied by the external transport and is a parameter
here). -/
def get_pools (_cap : Version) (ctxt filters reply : Value) : Outcome :=
  { effects := [Effect.send { ctx := ctxt, method := "get_pools",
                              version := RPC_DEFAULT_VERSION, mode := .call,
                              args := [("filters", filters)] }],
    result := .ok reply }

/-- `SchedulerAPI.update_service_capabilities`: fanout cast.  When the
endpoint supports 3.3, `cluster_name` and a to_primitive timestamp
(defaulting to `utcnow`, the ambient clock `now`) are added and the cast
goes at 3.3; otherwise the cast goes at 3.0 with neither field. -/
def update_service_capabilities (cap : Version) (ctxt service_name host
    capabilities cluster_name : Value) (timestamp : Option Value)
    (now : Nat) : Outcome :=
  let msg_args := [("service_name", service_name),
                   ("host", host),
                   ("capabilities", capabilities)]
  if supports cap ⟨3, 3⟩ then
    let ts := timestamp.getD (Value.time now)
    { effects := [Effect.send { ctx := ctxt, method := "update_service_capabilities",
                                version := ⟨3, 3⟩, mode := .fanoutCast,
                                args := msg_args ++ [("cluster_name", cluster_name),
                                                     ("timestamp", toPrimitive ts)] }],
      result := .ok Value.null }
  else
    { effects := [Effect.send { ctx := ctxt, method := "update_service_capabilities",
                                version := ⟨3, 0⟩, mode := .fanoutCast,
                                args := msg_args }],
      result := .ok Value.null }

/-- `SchedulerAPI.notify_service_capabilities`: hard gate at 3.1.  Raises
`ServiceTooOld` before any send when the endpoint does not support 3.1;
otherwise casts `notify_service_capabilities` at 3.1. -/
def notify_service_capabilities (cap : Version) (ctxt service_name host
    capabilities : Value) : Outcome :=
  if !(supports cap ⟨3, 1⟩) then
    { effects := [], result := .error (.serviceTooOld notifyTooOldMsg) }
  else
    { effects := [Effect.send { ctx := ctxt, method := "notify_service_capabilities",
                                version := ⟨3, 1⟩, mode := .cast,
                                args := [("service_name", service_name),
                                         ("host", host),
                                         ("capabilities", capabilities)] }],
      result := .ok Value.null }

/-- The timestamp argument carried by an outcome consisting of a single
send, when present. -/
def sentTimestamp (o : Outcome) : Option Value :=
  match o.effects with
  | [Effect.send e] => e.args.lookup "timestamp"
  | _ => none

/-- The numeric clock reading inside a to_primitive-serialized timestamp
argument of an outcome, when present. -/
def sentTimestampVal (o : Outcome) : Option Nat :=
  match sentTimestamp o with
  | some (Value.prim (Value.time n)) => some n
  | _ => none

/-- The shape asserted by the frame-effect claim: the invocation performed
exactly one side effect, and it is a transport send. -/
def soleEffectIsTransportSend (o : Outcome) : Prop :=
  ∃ e, o.effects = [Effect.send e]

/-- A capability strictly below a version does not support it. -/
theorem supports_eq_false_of_lt (cap v : Version) (h : Version.lt cap v = true) :
    supports cap v = false := by
  simp only [Version.lt, Bool.and_eq_true, Bool.not_eq_eq_eq_not, Bool.not_true] at h
  simpa [supports] using h.2

/-- C1: every `extend_volume` call against a capability that does not
support 3.2 raises `ServiceTooOld` with an empty effect trace: no transport
cast, call or fanout-cast happens, the exception being raised before any
message is sent. -/
theorem extend_volume_hard_gate (cap : Version) (ctxt volume new_size reservations
    request_spec filter_properties : Value)
    (h : supports cap ⟨3, 2⟩ = false) :
    extend_volume cap ctxt volume new_size reservations request_spec filter_properties =
      { effects := [], result := .error (.serviceTooOld extendVolumeTooOldMsg) } := by
  simp [extend_volume, h]

/-- C1 witness: at capability 3.1 the gate fires with no effects. -/
theorem extend_volume_hard_gate_witness :
    supports ⟨3, 1⟩ ⟨3, 2⟩ = false ∧
    extend_volume ⟨3, 1⟩ Value.null (Value.obj "vol") (Value.num 2) Value.null
        Value.null Value.null =
      { effects := [], result := .error (.serviceTooOld extendVolumeTooOldMsg) } :=
  ⟨by decide,
   extend_volume_hard_gate ⟨3, 1⟩ Value.null (Value.obj "vol") (Value.num 2) Value.null
     Value.null Value.null (by decide)⟩

/-- C2: `migrate_volume` produces exactly one of two envelope shapes and
never raises: with 3.3 supported, method `migrate_volume` at 3.3 with keys
`backend`/`force_copy`; otherwise method `migrate_volume_to_host` at 3.0
with keys `host`/`force_host_copy`, carrying the same destination and
force-copy values. -/
theorem migrate_volume_two_shapes (cap : Version) (ctxt volume backend : Value)
    (force_copy : Bool) (request_spec filter_properties : Value) :
    (supports cap ⟨3, 3⟩ = true →
      migrate_volume cap ctxt volume backend force_copy request_spec filter_properties =
        { effects := [Effect.send
            { ctx := ctxt, method := "migrate_volume",
              version := ⟨3, 3⟩, mode := .cast,
              args := [("request_spec", toPrimitive request_spec),
                     ("filter_properties", filter_properties),
                     ("volume", volume),
                     ("backend", backend),
                     ("force_copy", Value.bool force_copy)] }],
          result := .ok Value.null }) ∧
    (supports cap ⟨3, 3⟩ = false →
      migrate_volume cap ctxt volume backend force_copy request_spec filter_properties =
        { effects := [Effect.send
            { ctx := ctxt, method := "migrate_volume_to_host",
              version := ⟨3, 0⟩, mode := .cast,
              args := [("request_spec", toPrimitive request_spec),
                     ("filter_properties", filter_properties),
                     ("volume", volume),
                     ("host", backend),
                     ("force_host_copy", Value.bool force_copy)] }],
          result := .ok Value.null }) := by
  constructor <;> intro h <;> simp [migrate_volume, h]

/-- C2 witness: the two end-to-end scenarios of the spec, at capability 3.0
(legacy shape) and capability 3.3 (new shape) with destination "backendA"
and force-copy true. -/
theorem migrate_volume_two_shapes_witness :
    migrate_volume ⟨3, 0⟩ Value.null (Value.obj "vol") (Value.str "backendA") true
        Value.null Value.null =
      { effects := [Effect.send
          { ctx := Value.null, method := "migrate_volume_to_host",
            version := ⟨3, 0⟩, mode := .cast,
            args := [("request_spec", toPrimitive Value.null),
                   ("filter_properties", Value.null),
                   ("volume", Value.obj "vol"),
                   ("host", Value.str "backendA"),
                   ("force_host_copy", Value.bool true)] }],
        result := .ok Value.null } ∧
    migrate_volume ⟨3, 3⟩ Value.null (Value.obj "vol") (Value.str "backendA") true
        Value.null Value.null =
      { effects := [Effect.send
          { ctx := Value.null, method := "migrate_volume",
            version := ⟨3, 3⟩, mode := .cast,
            args := [("request_spec", toPrimitive Value.null),
                   ("filter_properties", Value.null),
                   ("volume", Value.obj "vol"),
                   ("backend", Value.str "backendA"),
                   ("force_copy", Value.bool true)] }],
        result := .ok Value.null } :=
  ⟨(migrate_volume_two_shapes ⟨3, 0⟩ Value.null (Value.obj "vol") (Value.str "backendA")
      true Value.null Value.null).2 (by decide),
   (migrate_volume_two_shapes ⟨3, 3⟩ Value.null (Value.obj "vol") (Value.str "backendA")
      true Value.null Value.null).1 (by decide)⟩

/-- C3: the `notify_service_capabilities` gate is `≥`-inclusive: a call at
capability exactly 3.1 succeeds with a single cast at version 3.1, and a
call at capability strictly below 3.1 raises `ServiceTooOld` with an empty
effect trace. -/
theorem notify_service_capabilities_boundary (cap : Version)
    (ctxt service_name host capabilities : Value) :
    (cap = ⟨3, 1⟩ →
      notify_service_capabilities cap ctxt service_name host capabilities =
        { effects := [Effect.send
            { ctx := ctxt, method := "notify_service_capabilities",
              version := ⟨3, 1⟩, mode := .cast,
              args := [("service_name", service_name),
                     ("host", host),
                     ("capabilities", capabilities)] }],
          result := .ok Value.null }) ∧
    (Version.lt cap ⟨3, 1⟩ = true →
      notify_service_capabilities cap ctxt service_name host capabilities =
        { effects := [], result := .error (.serviceTooOld notifyTooOldMsg) }) := by
  constructor
  · intro h
    subst h
    have hs : supports ⟨3, 1⟩ ⟨3, 1⟩ = true := by decide
    simp [notify_service_capabilities, hs]
  · intro h
    have hs := supports_eq_false_of_lt cap ⟨3, 1⟩ h
    simp [notify_service_capabilities, hs]

/-- C3 witness: the boundary capability 3.1 succeeds; capability 3.0
raises with no effects. -/
theorem notify_service_capabilities_boundary_witness :
    notify_service_capabilities ⟨3, 1⟩ Value.null (Value.str "sn") (Value.str "h")
        Value.null =
      { effects := [Effect.send
          { ctx := Value.null, method := "notify_service_capabilities",
            version := ⟨3, 1⟩, mode := .cast,
            args := [("service_name", Value.str "sn"),
                   ("host", Value.str "h"),
                   ("capabilities", Value.null)] }],
        result := .ok Value.null } ∧
    notify_service_capabilities ⟨3, 0⟩ Value.null (Value.str "sn") (Value.str "h")
        Value.null =
      { effects := [], result := .error (.serviceTooOld notifyTooOldMsg) } :=
  ⟨(notify_service_capabilities_boundary ⟨3, 1⟩ Value.null (Value.str "sn")
      (Value.str "h") Value.null).1 rfl,
   (notify_service_capabilities_boundary ⟨3, 0⟩ Value.null (Value.str "sn")
      (Value.str "h") Value.null).2 (by decide)⟩

/-- C4: `update_service_capabilities` is always a fanout-cast; with 3.3
supported the envelope carries `cluster_name` and a `timestamp` defaulting
to the current clock reading when none is supplied, at version 3.3;
otherwise the envelope is sent at version 3.0 and carries neither a
`timestamp` nor a `cluster_name` key. -/
theorem update_service_capabilities_variants (cap : Version)
    (ctxt service_name host capabilities cluster_name : Value)
    (timestamp : Option Value) (now : Nat) :
    (supports cap ⟨3, 3⟩ = true →
      update_service_capabilities cap ctxt service_name host capabilities
          cluster_name timestamp now =
        { effects := [Effect.send
            { ctx := ctxt, method := "update_service_capabilities",
              version := ⟨3, 3⟩, mode := .fanoutCast,
              args := [("service_name", service_name),
                       ("host", host),
                       ("capabilities", capabilities),
                       ("cluster_name", cluster_name),
                       ("timestamp", toPrimitive (timestamp.getD (Value.time now)))] }],
          result := .ok Value.null }) ∧
    (supports cap ⟨3, 3⟩ = false →
      update_service_capabilities cap ctxt service_name host capabilities
          cluster_name timestamp now =
        { effects := [Effect.send
            { ctx := ctxt, method := "update_service_capabilities",
              version := ⟨3, 0⟩, mode := .fanoutCast,
              args := [("service_name", service_name),
                       ("host", host),
                       ("capabilities", capabilities)] }],
          result := .ok Value.null }) := by
  constructor <;> intro h <;> simp [update_service_capabilities, h]

/-- C4 witness: capability 3.3 with no explicit timestamp includes
`cluster_name` and a defaulted timestamp; capability 3.0 sends neither, at
version 3.0, both as fanout-casts. -/
theorem update_service_capabilities_variants_witness :
    update_service_capabilities ⟨3, 3⟩ Value.null (Value.str "sn") (Value.str "h")
        Value.null (Value.str "cl") none 5 =
      { effects := [Effect.send
          { ctx := Value.null, method := "update_service_capabilities",
            version := ⟨3, 3⟩, mode := .fanoutCast,
            args := [("service_name", Value.str "sn"),
                     ("host", Value.str "h"),
                     ("capabilities", Value.null),
                     ("cluster_name", Value.str "cl"),
                     ("timestamp", toPrimitive (Value.time 5))] }],
        result := .ok Value.null } ∧
    update_service_capabilities ⟨3, 0⟩ Value.null (Value.str "sn") (Value.str "h")
        Value.null (Value.str "cl") none 5 =
      { effects := [Effect.send
          { ctx := Value.null, method := "update_service_capabilities",
            version := ⟨3, 0⟩, mode := .fanoutCast,
            args := [("service_name", Value.str "sn"),
                     ("host", Value.str "h"),
                     ("capabilities", Value.null)] }],
        result := .ok Value.null } :=
  ⟨(update_service_capabilities_variants ⟨3, 3⟩ Value.null (Value.str "sn")
      (Value.str "h") Value.null (Value.str "cl") none 5).1 (by decide),
   (update_service_capabilities_variants ⟨3, 0⟩ Value.null (Value.str "sn")
      (Value.str "h") Value.null (Value.str "cl") none 5).2 (by decide)⟩

/-- C5: for the six single-variant operations the built envelope equals the
caller's inputs with to_primitive applied exactly where the source applies
it, and the delivery mode matches the declared policy: cast for
`create_consistencygroup`, `create_group`, `create_volume`, `retype` and
`manage_existing`, request/reply call for `get_pools`, which returns the
transport's reply value. -/
theorem single_variant_ops_envelopes (cap : Version)
    (ctxt group group_spec group_filter_properties filter_properties_list
     volume snapshot_id image_id request_spec filter_properties filters
     reply : Value) (rsl : List Value) :
    create_consistencygroup cap ctxt group (some rsl) filter_properties_list =
      { effects := [Effect.send
          { ctx := ctxt, method := "create_consistencygroup",
            version := RPC_DEFAULT_VERSION, mode := .cast,
            args := [("group", group),
                     ("request_spec_list", Value.list (rsl.map toPrimitive)),
                     ("filter_properties_list", filter_properties_list)] }],
        result := .ok Value.null } ∧
    create_group cap ctxt group group_spec (some rsl) group_filter_properties
        filter_properties_list =
      { effects := [Effect.send
          { ctx := ctxt, method := "create_group",
            version := RPC_DEFAULT_VERSION, mode := .cast,
            args := [("group", group),
                     ("group_spec", toPrimitive group_spec),
                     ("request_spec_list", Value.list (rsl.map toPrimitive)),
                     ("group_filter_properties", group_filter_properties),
                     ("filter_properties_list", filter_properties_list)] }],
        result := .ok Value.null } ∧
    create_volume cap ctxt volume snapshot_id image_id request_spec
        filter_properties =
      { effects := [Effect.createWorker volume,
                    Effect.send
          { ctx := ctxt, method := "create_volume",
            version := RPC_DEFAULT_VERSION, mode := .cast,
            args := [("snapshot_id", snapshot_id),
                     ("image_id", image_id),
                     ("request_spec", request_spec),
                     ("filter_properties", filter_properties),
                     ("volume", volume)] }],
        result := .ok Value.null } ∧
    retype cap ctxt volume request_spec filter_properties =
      { effects := [Effect.send
          { ctx := ctxt, method := "retype",
            version := RPC_DEFAULT_VERSION, mode := .cast,
            args := [("request_spec", toPrimitive request_spec),
                     ("filter_properties", filter_properties),
                     ("volume", volume)] }],
        result := .ok Value.null } ∧
    manage_existing cap ctxt volume request_spec filter_properties =
      { effects := [Effect.send
          { ctx := ctxt, method := "manage_existing",
            version := RPC_DEFAULT_VERSION, mode := .cast,
            args := [("request_spec", toPrimitive request_spec),
                     ("filter_properties", filter_properties),
                     ("volume", volume)] }],
        result := .ok Value.null } ∧
    get_pools cap ctxt filters reply =
      { effects := [Effect.send
          { ctx := ctxt, method := "get_pools",
            version := RPC_DEFAULT_VERSION, mode := .call,
            args := [("filters", filters)] }],
        result := .ok reply } :=
  ⟨rfl, rfl, rfl, rfl, rfl, rfl⟩

/-- C6 counterexample: a concrete `create_volume` invocation whose effect
trace is not a single transport send — `volume.create_worker()` runs
before the cast, so the transport call is not the only side effect. -/
theorem create_volume_extra_side_effect :
    ¬ soleEffectIsTransportSend
        (create_volume ⟨3, 3⟩ Value.null (Value.obj "vol") Value.null Value.null
          Value.null Value.null) := by
  intro h
  obtain ⟨e, he⟩ := h
  simp [create_volume] at he

/-- C6 amended: every dispatched operation other than `create_volume`
performs, on its success path, exactly one side effect — the transport
send of the selected variant; `create_volume` additionally invokes
`volume.create_worker()` before its cast, and that is its only extra
effect. -/
theorem dispatcher_effects_exact (cap : Version)
    (ctxt group group_spec group_filter_properties filter_properties_list
     volume snapshot_id image_id request_spec filter_properties backend
     new_size reservations filters reply service_name host capabilities
     cluster_name : Value) (rsl : List Value) (force_copy : Bool)
    (timestamp : Option Value) (now : Nat)
    (h32 : supports cap ⟨3, 2⟩ = true) (h31 : supports cap ⟨3, 1⟩ = true) :
    soleEffectIsTransportSend
      (create_consistencygroup cap ctxt group (some rsl) filter_properties_list) ∧
    soleEffectIsTransportSend
      (create_group cap ctxt group group_spec (some rsl) group_filter_properties
        filter_properties_list) ∧
    soleEffectIsTransportSend
      (migrate_volume cap ctxt volume backend force_copy request_spec
        filter_properties) ∧
    soleEffectIsTransportSend (retype cap ctxt volume request_spec filter_properties) ∧
    soleEffectIsTransportSend
      (manage_existing cap ctxt volume request_spec filter_properties) ∧
    soleEffectIsTransportSend
      (extend_volume cap ctxt volume new_size reservations request_spec
        filter_properties) ∧
    soleEffectIsTransportSend (get_pools cap ctxt filters reply) ∧
    soleEffectIsTransportSend
      (update_service_capabilities cap ctxt service_name host capabilities
        cluster_name timestamp now) ∧
    soleEffectIsTransportSend
      (notify_service_capabilities cap ctxt service_name host capabilities) ∧
    (create_volume cap ctxt volume snapshot_id image_id request_spec
        filter_properties).effects =
      [Effect.createWorker volume,
       Effect.send
         { ctx := ctxt, method := "create_volume",
           version := RPC_DEFAULT_VERSION, mode := .cast,
           args := [("snapshot_id", snapshot_id),
                    ("image_id", image_id),
                    ("request_spec", request_spec),
                    ("filter_properties", filter_properties),
                    ("volume", volume)] }] := by
  refine ⟨⟨_, rfl⟩, ⟨_, rfl⟩, ?_, ⟨_, rfl⟩, ⟨_, rfl⟩, ?_, ⟨_, rfl⟩, ?_, ?_, rfl⟩
  · by_cases h : supports cap ⟨3, 3⟩ = true <;>
      simp [soleEffectIsTransportSend, migrate_volume, h]
  · simp [soleEffectIsTransportSend, extend_volume, h32]
  · by_cases h : supports cap ⟨3, 3⟩ = true <;>
      simp [soleEffectIsTransportSend, update_service_capabilities, h]
  · simp [soleEffectIsTransportSend, notify_service_capabilities, h31]

/-- C6 amended witness: the effect-trace shapes at capability 3.3 on
concrete inputs. -/
theorem dispatcher_effects_exact_witness :
    soleEffectIsTransportSend
      (retype ⟨3, 3⟩ Value.null (Value.obj "vol") Value.null Value.null) ∧
    (create_volume ⟨3, 3⟩ Value.null (Value.obj "vol") Value.null Value.null
        Value.null Value.null).effects =
      [Effect.createWorker (Value.obj "vol"),
       Effect.send
         { ctx := Value.null, method := "create_volume",
           version := RPC_DEFAULT_VERSION, mode := .cast,
           args := [("snapshot_id", Value.null),
                    ("image_id", Value.null),
                    ("request_spec", Value.null),
                    ("filter_properties", Value.null),
                    ("volume", Value.obj "vol")] }] :=
  ⟨(dispatcher_effects_exact ⟨3, 3⟩ Value.null Value.null Value.null Value.null
      Value.null (Value.obj "vol") Value.null Value.null Value.null Value.null
      Value.null Value.null Value.null Value.null Value.null Value.null
      Value.null Value.null Value.null [] false none 0 (by decide)
      (by decide)).2.2.2.1,
   (dispatcher_effects_exact ⟨3, 3⟩ Value.null Value.null Value.null Value.null
      Value.null (Value.obj "vol") Value.null Value.null Value.null Value.null
      Value.null Value.null Value.null Value.null Value.null Value.null
      Value.null Value.null Value.null [] false none 0 (by decide)
      (by decide)).2.2.2.2.2.2.2.2.2⟩

/-- C7 counterexample: two `update_service_capabilities` invocations with
identical caller arguments and identical capability 3.3, but with the
ambient clock at 0 and at 1 and no explicit timestamp, build different
argument mappings — the clock is a hidden input, so identical inputs plus
capability snapshot do not determine the envelope. -/
theorem envelope_idempotence_counterexample :
    update_service_capabilities ⟨3, 3⟩ Value.null (Value.str "sn") (Value.str "h")
        Value.null Value.null none 0 ≠
      update_service_capabilities ⟨3, 3⟩ Value.null (Value.str "sn") (Value.str "h")
        Value.null Value.null none 1 := by decide

/-- C7 amended: envelope construction is deterministic in the caller's
arguments, the capability snapshot and the ambient clock reading; the
clock is irrelevant whenever an explicit timestamp is supplied (and every
operation other than `update_service_capabilities` reads no clock at
all). -/
theorem envelope_idempotence_amended (cap : Version)
    (ctxt service_name host capabilities cluster_name t : Value)
    (now1 now2 : Nat) :
    update_service_capabilities cap ctxt service_name host capabilities
        cluster_name (some t) now1 =
      update_service_capabilities cap ctxt service_name host capabilities
        cluster_name (some t) now2 := by
  by_cases h : supports cap ⟨3, 3⟩ = true
  · simp [update_service_capabilities, h]
  · rw [Bool.not_eq_true] at h
    simp [update_service_capabilities, h]

/-- C8: with 3.3 supported and no explicit timestamp, the generated
timestamp carried by the fanout envelope equals the clock reading at the
time of the call (within any delta), and across two calls whose clock
readings are ordered the generated timestamps are non-decreasing. -/
theorem update_generated_timestamp (cap : Version)
    (ctxt service_name host capabilities cluster_name : Value)
    (now1 now2 : Nat) (h : supports cap ⟨3, 3⟩ = true) (hle : now1 ≤ now2) :
    sentTimestampVal (update_service_capabilities cap ctxt service_name host
        capabilities cluster_name none now1) = some now1 ∧
    sentTimestampVal (update_service_capabilities cap ctxt service_name host
        capabilities cluster_name none now2) = some now2 ∧
    ∀ n1 n2,
      sentTimestampVal (update_service_capabilities cap ctxt service_name host
          capabilities cluster_name none now1) = some n1 →
      sentTimestampVal (update_service_capabilities cap ctxt service_name host
          capabilities cluster_name none now2) = some n2 →
      n1 ≤ n2 := by
  have key : ∀ n : Nat,
      sentTimestampVal (update_service_capabilities cap ctxt service_name host
        capabilities cluster_name none n) = some n := by
    intro n
    simp [update_service_capabilities, h, sentTimestampVal, sentTimestamp,
      toPrimitive, List.lookup]
  refine ⟨key now1, key now2, ?_⟩
  intro n1 n2 e1 e2
  rw [key now1] at e1
  rw [key now2] at e2
  cases e1
  cases e2
  exact hle

/-- C8 witness: at capability 3.3, clock readings 4 then 9 yield generated
timestamps 4 and 9. -/
theorem update_generated_timestamp_witness :
    sentTimestampVal (update_service_capabilities ⟨3, 3⟩ Value.null (Value.str "sn")
        (Value.str "h") Value.null Value.null none 4) = some 4 ∧
    sentTimestampVal (update_service_capabilities ⟨3, 3⟩ Value.null (Value.str "sn")
        (Value.str "h") Value.null Value.null none 9) = some 9 :=
  ⟨(update_generated_timestamp ⟨3, 3⟩ Value.null (Value.str "sn") (Value.str "h")
      Value.null Value.null 4 9 (by decide) (by decide)).1,
   (update_generated_timestamp ⟨3, 3⟩ Value.null (Value.str "sn") (Value.str "h")
      Value.null Value.null 4 9 (by decide) (by decide)).2.1⟩

/-- C9: leaving `request_spec_list` at its documented default of `None`
makes `create_consistencygroup` and `create_group` fail with a `TypeError`
(iterating over `None`) with an empty effect trace — no transport method
is ever invoked. -/
theorem create_ops_none_spec_list_type_error (cap : Version)
    (ctxt group group_spec group_filter_properties filter_properties_list : Value) :
    create_consistencygroup cap ctxt group none filter_properties_list =
      { effects := [], result := .error (.typeError noneIterMsg) } ∧
    create_group cap ctxt group group_spec none group_filter_properties
        filter_properties_list =
      { effects := [], result := .error (.typeError noneIterMsg) } :=
  ⟨rfl, rfl⟩

/-- C10: whenever 3.3 is not supported, `migrate_volume` pins the legacy
envelope at exactly version 3.0 with method `migrate_volume_to_host`,
regardless of the endpoint's actual capability. -/
theorem migrate_volume_legacy_version_pinned (cap : Version)
    (ctxt volume backend : Value) (force_copy : Bool)
    (request_spec filter_properties : Value)
    (h : supports cap ⟨3, 3⟩ = false) :
    ∃ e, (migrate_volume cap ctxt volume backend force_copy request_spec
          filter_properties).effects = [Effect.send e] ∧
      e.version = ⟨3, 0⟩ ∧ e.method = "migrate_volume_to_host" ∧
      e.mode = DeliveryMode.cast := by
  refine ⟨{ ctx := ctxt, method := "migrate_volume_to_host",
            version := ⟨3, 0⟩, mode := .cast,
            args := [("request_spec", toPrimitive request_spec),
                     ("filter_properties", filter_properties),
                     ("volume", volume),
                     ("host", backend),
                     ("force_host_copy", Value.bool force_copy)] },
          ?_, rfl, rfl, rfl⟩
  simp [migrate_volume, h]

/-- C10 witness: endpoints at capability 3.1 and at capability 3.2 both
still receive the legacy envelope addressed at version 3.0. -/
theorem migrate_volume_legacy_version_pinned_witness :
    (∃ e, (migrate_volume ⟨3, 2⟩ Value.null (Value.obj "vol") (Value.str "backendA")
          true Value.null Value.null).effects = [Effect.send e] ∧
      e.version = ⟨3, 0⟩ ∧ e.method = "migrate_volume_to_host" ∧
      e.mode = DeliveryMode.cast) ∧
    (∃ e, (migrate_volume ⟨3, 1⟩ Value.null (Value.obj "vol") (Value.str "backendA")
          true Value.null Value.null).effects = [Effect.send e] ∧
      e.version = ⟨3, 0⟩ ∧ e.method = "migrate_volume_to_host" ∧
      e.mode = DeliveryMode.cast) :=
  ⟨migrate_volume_legacy_version_pinned ⟨3, 2⟩ Value.null (Value.obj "vol")
      (Value.str "backendA") true Value.null Value.null (by decide),
   migrate_volume_legacy_version_pinned ⟨3, 1⟩ Value.null (Value.obj "vol")
      (Value.str "backendA") true Value.null Value.null (by decide)⟩
